import Mathlib

/-!
Shallow embedding of the instance-lifecycle orchestrator, port allocator,
status monitor and terminal session manager of the Cloud Operating System
repository (`src/server/src/services/instanceService.ts`,
`src/server/src/services/terminalService.ts`, and the container monitor in
`src/unnamed/part_002`), together with proofs and refutations of the frozen
claims about them.

Conventions of the embedding:
* Docker runtime calls are modelled as oracle inputs: each operation takes a
  record of the responses the runtime would give at each call site.  A failed
  call carries the `statusCode` of the thrown error (`none` for a non-HTTP
  error), matching how the TypeScript code discriminates errors.
* The persisted row of one instance is an `InstRec`; the database column
  updates performed by `pool.query` become functional record updates.
* ISO timestamp strings are abstracted to `Nat` ticks.
* Socket/event emissions (`io.emit`, `socket.emit`) are collected in lists.
-/

namespace CloudOS

/-- Lifecycle status enum of an instance row (`instanceService.ts`, line 20). -/
inductive Status where
  | pending
  | running
  | stopped
  | terminated
deriving DecidableEq, Repr

/-- Resource-spec record (cpu/memory/storage strings, descriptive only). -/
structure Specs where
  cpu : String
  memory : String
  storage : String
deriving DecidableEq, Repr

/-- A persisted instance row (`instanceService.ts`, interface `Instance`). -/
structure InstRec where
  id : String
  userId : String
  name : String
  templateId : String
  status : Status
  containerId : Option String
  containerName : String
  createdAt : Nat
  lastStarted : Option Nat
  accessUrl : Option String
  ports : List Nat
  specs : Specs
deriving DecidableEq, Repr

/-- A static OS template (`instanceService.ts`, interface `OSTemplate`). -/
structure OSTemplate where
  id : String
  name : String
  image : String
  ports : List Nat
  environment : List (String × String)
  volumes : List String
  accessUrl : Option String
deriving DecidableEq, Repr

/-- The static template catalog `OS_TEMPLATES` (`instanceService.ts`, lines 34-79). -/
def OS_TEMPLATES : List (String × OSTemplate) :=
  [ ("ubuntu-desktop",
     { id := "ubuntu-desktop", name := "Ubuntu Desktop",
       image := "dorowu/ubuntu-desktop-lxde-vnc:latest", ports := [3002],
       environment := [("VNC_PASSWORD", "osmanager"), ("RESOLUTION", "1920x1080")],
       volumes := ["ubuntu_config:/home/ubuntu"],
       accessUrl := some "http://localhost:3002" }),
    ("alpine-desktop",
     { id := "alpine-desktop", name := "Alpine Linux",
       image := "danielguerra/alpine-vnc:latest", ports := [3001],
       environment := [("VNC_PASSWORD", "osmanager"), ("RESOLUTION", "1920x1080")],
       volumes := ["alpine_config:/home/alpine"],
       accessUrl := some "http://localhost:3001" }),
    ("debian-desktop",
     { id := "debian-desktop", name := "Debian Desktop",
       image := "accetto/debian-vnc-xfce-g3:latest", ports := [3003],
       environment := [("VNC_PW", "osmanager"), ("VNC_RESOLUTION", "1920x1080")],
       volumes := ["debian_config:/home/headless"],
       accessUrl := some "http://localhost:3003/vnc.html" }),
    ("tor-service",
     { id := "tor-service", name := "Tor Service", image := "alpine:latest",
       ports := [9050, 9051], environment := [], volumes := [],
       accessUrl := none }) ]

/-- Catalog lookup `OS_TEMPLATES[params.templateId]`. -/
def lookupTemplate (templateId : String) : Option OSTemplate :=
  (OS_TEMPLATES.find? (fun p => p.1 == templateId)).map (fun p => p.2)

/-- The default specs object used when the caller supplies none
(`instanceService.ts`, lines 113-117). -/
def defaultSpecs : Specs :=
  { cpu := "2 vCPU", memory := "2 GB RAM", storage := "10 GB SSD" }

/-- The instance object built and inserted by `createInstance`
(`instanceService.ts`, lines 100-136): status `pending`, no container id,
container name derived from the template id and the first 8 characters of the
generated instance id, ports and access URL copied from the template. -/
def newInstance (userId nm templateId : String) (tpl : OSTemplate)
    (instanceId : String) (createdAt : Nat) (specs : Option Specs) : InstRec :=
  { id := instanceId
    userId := userId
    name := nm
    templateId := templateId
    status := .pending
    containerId := none
    containerName := templateId ++ "-" ++ instanceId.take 8
    createdAt := createdAt
    lastStarted := none
    accessUrl := tpl.accessUrl
    ports := tpl.ports
    specs := specs.getD defaultSpecs }

/-! ## Runtime oracle -/

/-- Outcome of one Docker API call.  `err code` models a thrown error whose
`statusCode` field is `code` (`none` when the error carries no HTTP status). -/
inductive DockerResult (α : Type) where
  | ok (a : α)
  | err (statusCode : Option Nat)
deriving DecidableEq, Repr

/-- What `container.inspect()` reports: the `State.Running` flag and the
`State.Status` string. -/
structure InspectInfo where
  running : Bool
  status : String
deriving DecidableEq, Repr

/-- An `instance-status-changed` event emitted on the notification bus. -/
inductive Event where
  | statusChanged (instanceId : String) (status : Status)
deriving DecidableEq, Repr

/-- Errors surfaced to the caller of a lifecycle operation. -/
inductive OpError where
  | instanceNotFound
  | containerGone
  | other (statusCode : Option Nat)
deriving DecidableEq, Repr

instance exceptDecEq {ε α : Type} [DecidableEq ε] [DecidableEq α] :
    DecidableEq (Except ε α) := fun x y =>
  match x, y with
  | .ok a, .ok b => decidable_of_iff (a = b) (by simp)
  | .error a, .error b => decidable_of_iff (a = b) (by simp)
  | .ok _, .error _ => isFalse (by simp)
  | .error _, .ok _ => isFalse (by simp)

/-- Result of one lifecycle operation on one instance: the persisted row
afterwards, the events emitted, and the returned/raised outcome. -/
structure OpOutcome where
  db : Option InstRec
  events : List Event
  result : Except OpError Unit
deriving DecidableEq, Repr

/-! ## Port allocator (`findAvailablePorts`, `instanceService.ts` lines 144-180) -/

/-- The inner `while` loop of `findAvailablePorts`: starting at `p`, with
`fuel` probes remaining before the exclusive bound `templatePort + 1000`,
return the first port that is neither in `used` (runtime-bound, plus ports
claimed earlier and added to the used set) nor in `acc` (the result list built
so far). -/
def findPortFrom (used acc : List Nat) : Nat → Nat → Option Nat
  | _, 0 => none
  | p, fuel + 1 =>
    if p ∈ used ∨ p ∈ acc then findPortFrom used acc (p + 1) fuel else some p

/-- The outer `for` loop of `findAvailablePorts`: allocate one port per
declared template port, threading the growing used set (each claimed port is
added to `used`) and the result accumulator `acc`. -/
def goPorts : List Nat → List Nat → List Nat → Option (List Nat)
  | [], _, acc => some acc
  | tp :: rest, used, acc =>
    match findPortFrom used acc tp 1000 with
    | none => none
    | some p => goPorts rest (p :: used) (acc ++ [p])

/-- `findAvailablePorts(templatePorts)` with the runtime-bound port set
(extracted from `docker.listContainers`) supplied as `used`.  Returns `none`
where the source throws `No available ports found`. -/
def findAvailablePorts (templatePorts used : List Nat) : Option (List Nat) :=
  goPorts templatePorts used []

/-- The property the i-th allocated port must satisfy: it lies in the window
of its declared port, avoids the exclusion list, and every smaller candidate
in the window is excluded. -/
def isLeastAvail (excl : List Nat) (base p : Nat) : Prop :=
  base ≤ p ∧ p < base + 1000 ∧ p ∉ excl ∧ ∀ q, base ≤ q → q < p → q ∈ excl

/-! ## Asynchronous reconcile-on-create (`createContainer`, lines 210-305) -/

/-- Runtime responses consumed by one run of `createContainer`:
the result of `checkExistingContainer` (which absorbs its own listing errors
into `null`), the inspect of an adopted container, the set of host ports the
runtime reports bound (feeding `findAvailablePorts`), and the outcome of
`docker.createContainer` (the new container id on success). -/
structure ReconcileRuntime where
  existing : Option (String × List Nat)
  inspectExisting : DockerResult InspectInfo
  runtimeUsedPorts : List Nat
  createResult : DockerResult String
deriving DecidableEq, Repr

/-- JavaScript `String.prototype.replace` with a string pattern replaces only
the first occurrence; this is that operation on character lists. -/
def replaceFirstChars (pat rep : List Char) : List Char → List Char
  | [] => []
  | c :: rest =>
    if pat.isPrefixOf (c :: rest) then rep ++ (c :: rest).drop pat.length
    else c :: replaceFirstChars pat rep rest

/-- JavaScript `s.replace(pat, rep)` (first occurrence only). -/
def jsReplace (s pat rep : String) : String :=
  ⟨replaceFirstChars pat.data rep.data s.data⟩

/-- `accessUrl.replace(":" + oldPort, ":" + newPort)` on an optional URL. -/
def rewriteAccessUrl (url : Option String) (oldPort newPort : Nat) : Option String :=
  url.map (fun u => jsReplace u (":" ++ toString oldPort) (":" ++ toString newPort))

/-- `createContainer(instance, template)` (`instanceService.ts`, lines
210-305).  First re-persists status `pending`; then either adopts a
pre-existing container for the template (setting its id, inspected status,
rewritten access URL and actual ports), or allocates ports and creates a new
container (setting its id, status `stopped`, rewritten access URL and the
allocated ports); any failure (port window exhausted, create failed) is
caught and persists only `status = terminated`. -/
def createContainer (inst : InstRec) (tpl : OSTemplate) (rt : ReconcileRuntime) :
    Option InstRec × List Event :=
  let inst := { inst with status := Status.pending }
  match rt.existing with
  | some (cid, exPorts) =>
    let actualStatus : Status :=
      match rt.inspectExisting with
      | .ok info => if info.running then .running else .stopped
      | .err _ => .stopped
    let url :=
      if exPorts.length > 0 then
        rewriteAccessUrl tpl.accessUrl (tpl.ports.headD 0) (exPorts.headD 0)
      else tpl.accessUrl
    (some { inst with containerId := some cid, status := actualStatus,
                      accessUrl := url, ports := exPorts },
     [Event.statusChanged inst.id actualStatus])
  | none =>
    match findAvailablePorts tpl.ports rt.runtimeUsedPorts with
    | none =>
      (some { inst with status := Status.terminated },
       [Event.statusChanged inst.id Status.terminated])
    | some avail =>
      let url :=
        if avail.headD 0 ≠ tpl.ports.headD 0 then
          rewriteAccessUrl tpl.accessUrl (tpl.ports.headD 0) (avail.headD 0)
        else tpl.accessUrl
      match rt.createResult with
      | .ok cid =>
        (some { inst with containerId := some cid, status := Status.stopped,
                          accessUrl := url, ports := avail },
         [Event.statusChanged inst.id Status.stopped])
      | .err _ =>
        (some { inst with status := Status.terminated },
         [Event.statusChanged inst.id Status.terminated])

/-! ## start / stop / restart / terminate / syncStatus -/

/-- Runtime responses consumed by `startInstance`: the inspect of the backing
container and the outcome of `container.start()`. -/
structure StartRuntime where
  inspect : DockerResult InspectInfo
  start : DockerResult Unit
deriving DecidableEq, Repr

/-- The `catch` block of `startInstance` (lines 388-410): statusCode 304 is
normalized to a successful running sync, 404 persists `terminated` and raises
`Container no longer exists`, anything else is rethrown. -/
def startCatch (inst : InstRec) (code : Option Nat) (now : Nat) : OpOutcome :=
  if code = some 304 then
    { db := some { inst with status := .running, lastStarted := some now }
      events := [Event.statusChanged inst.id .running]
      result := .ok () }
  else if code = some 404 then
    { db := some { inst with status := .terminated }
      events := []
      result := .error .containerGone }
  else
    { db := some inst, events := [], result := .error (.other code) }

/-- `startInstance(instanceId, userId)` (lines 356-411) on the owner-scoped
row `inst?`.  Rejects when the row is absent or carries no container id;
otherwise inspects, starts if not already running, persists
`running`/`last_started` and emits; Docker errors go through `startCatch`. -/
def startInstance (inst? : Option InstRec) (rt : StartRuntime) (now : Nat) : OpOutcome :=
  match inst? with
  | none => { db := inst?, events := [], result := .error .instanceNotFound }
  | some inst =>
    match inst.containerId with
    | none => { db := inst?, events := [], result := .error .instanceNotFound }
    | some _ =>
      match rt.inspect with
      | .ok info =>
        if info.running then
          { db := some { inst with status := .running, lastStarted := some now }
            events := [Event.statusChanged inst.id .running]
            result := .ok () }
        else
          match rt.start with
          | .ok _ =>
            { db := some { inst with status := .running, lastStarted := some now }
              events := [Event.statusChanged inst.id .running]
              result := .ok () }
          | .err code => startCatch inst code now
      | .err code => startCatch inst code now

/-- Runtime responses consumed by `stopInstance`. -/
structure StopRuntime where
  inspect : DockerResult InspectInfo
  stop : DockerResult Unit
deriving DecidableEq, Repr

/-- The `catch` block of `stopInstance` (lines 439-458). -/
def stopCatch (inst : InstRec) (code : Option Nat) : OpOutcome :=
  if code = some 304 then
    { db := some { inst with status := .stopped }
      events := [Event.statusChanged inst.id .stopped]
      result := .ok () }
  else if code = some 404 then
    { db := some { inst with status := .terminated }
      events := []
      result := .error .containerGone }
  else
    { db := some inst, events := [], result := .error (.other code) }

/-- `stopInstance(instanceId, userId)` (lines 413-459). -/
def stopInstance (inst? : Option InstRec) (rt : StopRuntime) : OpOutcome :=
  match inst? with
  | none => { db := inst?, events := [], result := .error .instanceNotFound }
  | some inst =>
    match inst.containerId with
    | none => { db := inst?, events := [], result := .error .instanceNotFound }
    | some _ =>
      match rt.inspect with
      | .ok info =>
        if ¬ info.running then
          { db := some { inst with status := .stopped }
            events := [Event.statusChanged inst.id .stopped]
            result := .ok () }
        else
          match rt.stop with
          | .ok _ =>
            { db := some { inst with status := .stopped }
              events := [Event.statusChanged inst.id .stopped]
              result := .ok () }
          | .err code => stopCatch inst code
      | .err code => stopCatch inst code

/-- Runtime responses consumed by `restartInstance`. -/
structure RestartRuntime where
  inspect : DockerResult InspectInfo
  restart : DockerResult Unit
deriving DecidableEq, Repr

/-- The `catch` block of `restartInstance` (lines 486-496): only 404 is
special-cased (no 304 normalization here). -/
def restartCatch (inst : InstRec) (code : Option Nat) : OpOutcome :=
  if code = some 404 then
    { db := some { inst with status := .terminated }
      events := []
      result := .error .containerGone }
  else
    { db := some inst, events := [], result := .error (.other code) }

/-- `restartInstance(instanceId, userId)` (lines 461-497): inspect (existence
check), restart unconditionally, persist `running` and a new
`last_started`. -/
def restartInstance (inst? : Option InstRec) (rt : RestartRuntime) (now : Nat) : OpOutcome :=
  match inst? with
  | none => { db := inst?, events := [], result := .error .instanceNotFound }
  | some inst =>
    match inst.containerId with
    | none => { db := inst?, events := [], result := .error .instanceNotFound }
    | some _ =>
      match rt.inspect with
      | .err code => restartCatch inst code
      | .ok _ =>
        match rt.restart with
        | .err code => restartCatch inst code
        | .ok _ =>
          { db := some { inst with status := .running, lastStarted := some now }
            events := [Event.statusChanged inst.id .running]
            result := .ok () }

/-- Runtime responses consumed by `terminateInstance`: the existence-check
inspect and the forced remove. -/
structure TermRuntime where
  inspect : DockerResult InspectInfo
  remove : DockerResult Unit
deriving DecidableEq, Repr

/-- The tail of `terminateInstance`: persist `terminated` and publish. -/
def termFinish (inst : InstRec) : OpOutcome :=
  { db := some { inst with status := .terminated }
    events := [Event.statusChanged inst.id .terminated]
    result := .ok () }

/-- `terminateInstance(instanceId, userId)` (lines 499-537).  A missing row is
`Instance not found`; a row with no container id skips the runtime entirely;
otherwise inspect-then-force-remove, where a 404 from either call is absorbed
and any other error is rethrown before the status update.  On the non-throwing
paths the row is persisted `terminated` and the change published. -/
def terminateInstance (inst? : Option InstRec) (rt : TermRuntime) : OpOutcome :=
  match inst? with
  | none => { db := none, events := [], result := .error .instanceNotFound }
  | some inst =>
    match inst.containerId with
    | none => termFinish inst
    | some _ =>
      match rt.inspect with
      | .ok _ =>
        match rt.remove with
        | .ok _ => termFinish inst
        | .err code =>
          if code = some 404 then termFinish inst
          else { db := some inst, events := [], result := .error (.other code) }
      | .err code =>
        if code = some 404 then termFinish inst
        else { db := some inst, events := [], result := .error (.other code) }

/-- `syncInstanceStatus(instanceId)` (lines 546-583): nothing to do without a
row or container id; otherwise overwrite the persisted status with the
inspected run-state, or `terminated` on a 404 (other inspect errors are
silently absorbed, leaving the row unchanged). -/
def syncInstanceStatus (inst? : Option InstRec) (rt : DockerResult InspectInfo) :
    Option InstRec :=
  match inst? with
  | none => none
  | some inst =>
    match inst.containerId with
    | none => some inst
    | some _ =>
      match rt with
      | .ok info =>
        some { inst with status := if info.running then .running else .stopped }
      | .err code =>
        if code = some 404 then some { inst with status := .terminated }
        else some inst

/-! ## Reachability of persisted states of one instance

One persisted row evolves through the orchestrator's operations, each modelled
as one atomic step parameterized by arbitrary runtime responses.  `none` is
the state before `createInstance` inserts the row. -/

/-- One orchestrator operation applied to the persisted row of one instance:
`createInstance` inserting the fresh `pending` row, the asynchronous
`createContainer` reconciliation, or one of the five runtime-facing
operations, each with arbitrary runtime responses. -/
def OrchStep (a b : Option InstRec) : Prop :=
  (∃ userId nm templateId instanceId tpl createdAt specs,
      lookupTemplate templateId = some tpl ∧ a = none ∧
      b = some (newInstance userId nm templateId tpl instanceId createdAt specs)) ∨
  (∃ inst tpl rt, lookupTemplate inst.templateId = some tpl ∧
      a = some inst ∧ b = (createContainer inst tpl rt).1) ∨
  (∃ rt now, b = (startInstance a rt now).db) ∨
  (∃ rt, b = (stopInstance a rt).db) ∨
  (∃ rt now, b = (restartInstance a rt now).db) ∨
  (∃ rt, b = (terminateInstance a rt).db) ∨
  (∃ rt, b = syncInstanceStatus a rt)

/-- The persisted states of one instance reachable from its non-existence. -/
def Reachable (s : Option InstRec) : Prop :=
  Relation.ReflTransGen OrchStep none s

/-! ## Terminal session manager (`terminalService.ts`) -/

/-- A registered terminal session (`terminalService.ts`, interface
`TerminalSession`); the live exec handle and byte stream are runtime
resources and carry no modelled data. -/
structure TermSession where
  id : String
  containerId : String
  socketId : String
deriving DecidableEq, Repr

/-- The in-process session registry `Map<string, TerminalSession>`. -/
abbrev Registry := List (String × TermSession)

/-- `sessions.get(sessionId)`. -/
def regGet (sessions : Registry) (sessionId : String) : Option TermSession :=
  (sessions.find? (fun p => p.1 == sessionId)).map (fun p => p.2)

/-- `sessions.set(sessionId, session)` (overwrites any entry with the key). -/
def regSet (sessions : Registry) (sessionId : String) (s : TermSession) : Registry :=
  (sessionId, s) :: sessions.filter (fun p => p.1 != sessionId)

/-- Occurrence of `pat` as a contiguous run inside a character list. -/
def containsChars (pat : List Char) : List Char → Bool
  | [] => pat.isEmpty
  | c :: rest => pat.isPrefixOf (c :: rest) || containsChars pat rest

/-- JavaScript `s.includes(pat)`. -/
def strIncludes (s pat : String) : Bool :=
  containsChars pat.data s.data

/-- JavaScript `s.trim()`: strip whitespace from both ends. -/
def strTrim (s : String) : String :=
  ⟨((s.data.dropWhile Char.isWhitespace).reverse.dropWhile Char.isWhitespace).reverse⟩

/-- The shell probe (`terminalService.ts`, lines 47-72): run `which bash`,
fall back to `/bin/sh` when the output does not mention `/bin/bash` or the
probe itself fails. -/
def pickShell (probe : DockerResult String) : String :=
  match probe with
  | .ok out => if strIncludes out "/bin/bash" then "/bin/bash" else "/bin/sh"
  | .err _ => "/bin/sh"

/-- Runtime responses consumed by `createTerminalSession`: the container
inspect, the shell-probe output, and the outcomes of creating and starting
the interactive exec. -/
structure OpenRuntime where
  inspect : DockerResult InspectInfo
  probe : DockerResult String
  execCreate : DockerResult Unit
  execStart : DockerResult Unit
deriving DecidableEq, Repr

/-- Terminal events emitted to the owning socket connection (payload error
and output strings are elided). -/
inductive TermEvent where
  | terminalError (sessionId : String)
  | terminalReady (sessionId : String)
  | terminalOutput (sessionId : String) (data : String)
  | terminalClosed (sessionId : String)
deriving DecidableEq, Repr

/-- `createTerminalSession(socket, containerId, sessionId)`
(`terminalService.ts`, lines 20-136).  An uninspectable container (the
surrounding catch-all) or one reported not running emits a session-scoped
`terminal-error` and registers nothing; the shell probe never aborts; a
failure creating or starting the exec also lands in the catch-all; only on
full success is the session registered and `terminal-ready` emitted. -/
def createTerminalSession (sessions : Registry) (socketId containerId sessionId : String)
    (rt : OpenRuntime) : Registry × List TermEvent :=
  match rt.inspect with
  | .err _ => (sessions, [TermEvent.terminalError sessionId])
  | .ok info =>
    if ¬ info.running then (sessions, [TermEvent.terminalError sessionId])
    else
      let _shell := pickShell rt.probe
      match rt.execCreate with
      | .err _ => (sessions, [TermEvent.terminalError sessionId])
      | .ok _ =>
        match rt.execStart with
        | .err _ => (sessions, [TermEvent.terminalError sessionId])
        | .ok _ =>
          (regSet sessions sessionId
             { id := sessionId, containerId := containerId, socketId := socketId },
           [TermEvent.terminalReady sessionId])

/-- `writeToTerminal(sessionId, data)` (lines 138-143): the bytes forwarded
into the session's stream, `none` when the session is unknown. -/
def writeToTerminal (sessions : Registry) (sessionId data : String) : Option String :=
  match regGet sessions sessionId with
  | some _ => some data
  | none => none

/-- `resizeTerminal(sessionId, cols, rows)` (lines 145-154): the resize
issued to the exec, `none` when the session is unknown. -/
def resizeTerminal (sessions : Registry) (sessionId : String) (cols rows : Nat) :
    Option (Nat × Nat) :=
  match regGet sessions sessionId with
  | some _ => some (cols, rows)
  | none => none

/-- `closeSession(sessionId)` (lines 156-171): delete the entry when present,
otherwise leave the registry alone. -/
def closeSession (sessions : Registry) (sessionId : String) : Registry :=
  match regGet sessions sessionId with
  | some _ => sessions.filter (fun p => p.1 != sessionId)
  | none => sessions

/-! ## Container status monitor (`ContainerMonitor`, `src/unnamed/part_002`) -/

/-- One entry of the monitor's container snapshot (interface
`ContainerStatus`). -/
structure ContainerStatus where
  id : String
  name : String
  status : String
  state : String
  ports : List Nat
  created : String
deriving DecidableEq, Repr

/-- `hasContainerStatusChanged(newStatuses)` (part_002, lines 599-616):
a change is a different count, or some new entry whose id is absent from the
baseline or whose status/state string differs from the baseline entry found
by id. -/
def hasContainerStatusChanged (last curr : List ContainerStatus) : Bool :=
  if last.length ≠ curr.length then true
  else curr.any (fun ns =>
    match last.find? (fun s => s.id == ns.id) with
    | none => true
    | some os => os.status != ns.status || os.state != ns.state)

/-- The container-snapshot half of one `checkContainerStatus` tick (part_002,
lines 484-509): publish the full snapshot and store it as the new baseline
exactly when the diff reports a change. -/
def containerSnapshotTick (last snap : List ContainerStatus) :
    Option (List ContainerStatus) × List ContainerStatus :=
  if hasContainerStatusChanged last snap then (some snap, snap) else (none, last)

/-- Events published by the monitor. -/
inductive MonEvent where
  | containerStatusUpdate (snapshot : List ContainerStatus)
  | serviceStatusChanged (serviceId : String) (status : String) (timestamp : Nat)
deriving DecidableEq, Repr

/-- The fixed service-name list probed by `checkServiceStatus` (part_002,
line 512). -/
def serviceNames : List String :=
  ["alpine-desktop", "ubuntu-desktop", "debian-desktop", "tor-service"]

/-- Status derived from one `docker ps --filter name=... --format Status`
probe: `running` when the trimmed stdout mentions `Up`, otherwise `stopped`;
a failed probe also counts as `stopped`. -/
def serviceStatusOf (probe : DockerResult String) : String :=
  match probe with
  | .ok out => if strIncludes (strTrim out) "Up" then "running" else "stopped"
  | .err _ => "stopped"

/-- Lookup in the `lastServiceStatuses` record. -/
def lookupService (m : List (String × String)) (k : String) : Option String :=
  (m.find? (fun p => p.1 == k)).map (fun p => p.2)

/-- Assignment into the `lastServiceStatuses` record. -/
def setService (m : List (String × String)) (k v : String) : List (String × String) :=
  (k, v) :: m.filter (fun p => p.1 != k)

/-- `checkServiceStatus()` (part_002, lines 511-544): for each well-known
name, derive the probed status and emit a `service-status-changed` event
exactly when it differs from the last-seen status (including the initial
unset state), updating the per-name baseline. -/
def checkServiceStatus (lastServ : List (String × String))
    (probes : String → DockerResult String) (now : Nat) :
    List (String × String) × List MonEvent :=
  serviceNames.foldl
    (fun acc service =>
      let cur := serviceStatusOf (probes service)
      if lookupService acc.1 service = some cur then acc
      else (setService acc.1 service cur,
            acc.2 ++ [MonEvent.serviceStatusChanged service cur now]))
    (lastServ, [])

/-- The monitor's own mutable state: the two baselines. -/
structure MonitorState where
  lastContainerStatuses : List ContainerStatus
  lastServiceStatuses : List (String × String)
deriving DecidableEq, Repr

/-- One full `checkContainerStatus` tick (part_002, lines 484-544), run
against the persisted instance store `db`.  The tick reads the runtime
snapshot and the per-name probes, diffs, publishes and updates its own
baselines; it issues no store query, so the store is passed through
untouched. -/
def monitorTick (db : String → Option InstRec) (mon : MonitorState)
    (snap : List ContainerStatus) (probes : String → DockerResult String) (now : Nat) :
    (String → Option InstRec) × MonitorState × List MonEvent :=
  let contPart := containerSnapshotTick mon.lastContainerStatuses snap
  let servPart := checkServiceStatus mon.lastServiceStatuses probes now
  (db,
   { lastContainerStatuses := contPart.2, lastServiceStatuses := servPart.1 },
   (match contPart.1 with
    | some s => [MonEvent.containerStatusUpdate s]
    | none => []) ++ servPart.2)

/-! ## Lemmas about the port allocator -/

theorem findPortFrom_eq_none_iff (used acc : List Nat) (fuel : Nat) :
    ∀ p, findPortFrom used acc p fuel = none ↔
      ∀ q, p ≤ q → q < p + fuel → (q ∈ used ∨ q ∈ acc) := by
  induction fuel with
  | zero =>
    intro p
    constructor
    · intro _ q h1 h2; exact absurd h2 (by omega)
    · intro _; rfl
  | succ n ih =>
    intro p
    simp only [findPortFrom]
    by_cases hmem : p ∈ used ∨ p ∈ acc
    · rw [if_pos hmem, ih]
      constructor
      · intro h q h1 h2
        rcases Nat.eq_or_lt_of_le h1 with heq | hlt
        · exact heq ▸ hmem
        · exact h q hlt (by omega)
      · intro h q h1 h2
        exact h q (by omega) (by omega)
    · rw [if_neg hmem]
      constructor
      · intro h; exact absurd h (by simp)
      · intro h; exact absurd (h p (Nat.le_refl p) (by omega)) hmem

theorem findPortFrom_eq_some (used acc : List Nat) (r : Nat) :
    ∀ p fuel, findPortFrom used acc p fuel = some r →
      p ≤ r ∧ r < p + fuel ∧ r ∉ used ∧ r ∉ acc ∧
        ∀ q, p ≤ q → q < r → (q ∈ used ∨ q ∈ acc) := by
  intro p fuel
  induction fuel generalizing p with
  | zero => intro h; exact absurd h (by simp [findPortFrom])
  | succ n ih =>
    intro h
    simp only [findPortFrom] at h
    by_cases hmem : p ∈ used ∨ p ∈ acc
    · rw [if_pos hmem] at h
      obtain ⟨h1, h2, h3, h4, h5⟩ := ih (p + 1) h
      refine ⟨by omega, by omega, h3, h4, ?_⟩
      intro q hq1 hq2
      rcases Nat.eq_or_lt_of_le hq1 with heq | hlt
      · exact heq ▸ hmem
      · exact h5 q hlt hq2
    · rw [if_neg hmem] at h
      have hpr : p = r := by injection h
      subst hpr
      refine ⟨Nat.le_refl p, by omega, fun hc => hmem (Or.inl hc),
              fun hc => hmem (Or.inr hc), ?_⟩
      intro q hq1 hq2
      exact absurd hq2 (by omega)

theorem isLeastAvail_congr (e₁ e₂ : List Nat) (h : ∀ x, x ∈ e₁ ↔ x ∈ e₂) (base p : Nat) :
    isLeastAvail e₁ base p ↔ isLeastAvail e₂ base p := by
  unfold isLeastAvail
  simp only [h]

theorem goPorts_extends (tps : List Nat) :
    ∀ used acc res, goPorts tps used acc = some res → ∃ ch, res = acc ++ ch := by
  induction tps with
  | nil =>
    intro used acc res h
    have hacc : acc = res := by injection h
    exact ⟨[], by simp [hacc]⟩
  | cons tp rest ih =>
    intro used acc res h
    simp only [goPorts] at h
    cases hf : findPortFrom used acc tp 1000 with
    | none => rw [hf] at h; exact absurd h (by simp)
    | some p =>
      rw [hf] at h
      obtain ⟨ch, hch⟩ := ih _ _ _ h
      exact ⟨p :: ch, by simp [hch]⟩

theorem goPorts_spec (tps : List Nat) :
    ∀ used acc res, goPorts tps used acc = some res →
      ∃ ch, res = acc ++ ch ∧ ch.length = tps.length ∧
        ∀ i (h1 : i < tps.length) (h2 : i < ch.length),
          isLeastAvail (used ++ acc ++ ch.take i) (tps.get ⟨i, h1⟩) (ch.get ⟨i, h2⟩) := by
  induction tps with
  | nil =>
    intro used acc res h
    have hacc : acc = res := by injection h
    exact ⟨[], by simp [hacc], rfl, fun i h1 _ => absurd h1 (by simp)⟩
  | cons tp rest ih =>
    intro used acc res h
    simp only [goPorts] at h
    cases hf : findPortFrom used acc tp 1000 with
    | none => rw [hf] at h; exact absurd h (by simp)
    | some p =>
      rw [hf] at h
      obtain ⟨ch', hres, hlen, hspec⟩ := ih _ _ _ h
      obtain ⟨hp1, hp2, hp3, hp4, hp5⟩ := findPortFrom_eq_some used acc p tp 1000 hf
      refine ⟨p :: ch', by simp [hres], by simp [hlen], ?_⟩
      intro i h1 h2
      match i with
      | 0 =>
        refine (isLeastAvail_congr (used ++ acc) _ (by intro x; simp [List.mem_append]) tp p).mp ?_
        refine ⟨hp1, hp2, ?_, ?_⟩
        · intro hc
          rcases List.mem_append.mp hc with hc | hc
          · exact hp3 hc
          · exact hp4 hc
        · intro q hq1 hq2
          exact List.mem_append.mpr (hp5 q hq1 hq2)
      | Nat.succ j =>
        have hj1 : j < rest.length := by simpa using h1
        have hj2 : j < ch'.length := by simpa using h2
        have := hspec j hj1 hj2
        refine (isLeastAvail_congr ((p :: used) ++ (acc ++ [p]) ++ ch'.take j) _
          (by intro x; simp [List.mem_append]; tauto) _ _).mp ?_
        simpa using this

theorem goPorts_eq_none_iff (tps : List Nat) :
    ∀ used acc, goPorts tps used acc = none ↔
      ∃ i res, ∃ h1 : i < tps.length, goPorts (tps.take i) used acc = some res ∧
        ∀ q, tps.get ⟨i, h1⟩ ≤ q → q < tps.get ⟨i, h1⟩ + 1000 → (q ∈ used ∨ q ∈ res) := by
  induction tps with
  | nil =>
    intro used acc
    constructor
    · intro h; exact absurd h (by simp [goPorts])
    · rintro ⟨i, res, h1, -⟩; exact absurd h1 (by simp)
  | cons tp rest ih =>
    intro used acc
    simp only [goPorts]
    cases hf : findPortFrom used acc tp 1000 with
    | none =>
      constructor
      · intro _
        refine ⟨0, acc, by simp, rfl, ?_⟩
        intro q h1 h2
        exact (findPortFrom_eq_none_iff used acc 1000 tp).mp hf q h1 h2
      · intro _; rfl
    | some p =>
      rw [ih]
      constructor
      · rintro ⟨i, res, h1, hgo, hcov⟩
        refine ⟨i + 1, res, by simpa using Nat.succ_lt_succ h1, ?_, ?_⟩
        · simpa [goPorts, hf] using hgo
        · intro q hq1 hq2
          have := hcov q (by simpa using hq1) (by simpa using hq2)
          rcases this with hq | hq
          · rcases List.mem_cons.mp hq with heq | hq
            · obtain ⟨ch, hch⟩ := goPorts_extends _ _ _ _ hgo
              right
              rw [hch, heq]
              simp
            · exact Or.inl hq
          · exact Or.inr hq
      · rintro ⟨i, res, h1, hgo, hcov⟩
        match i with
        | 0 =>
          have hres : acc = res := by
            simpa [goPorts] using hgo
          obtain ⟨hp1, hp2, hp3, hp4, -⟩ := findPortFrom_eq_some used acc p tp 1000 hf
          rcases hcov p (by simpa using hp1) (by simpa using hp2) with hc | hc
          · exact absurd hc hp3
          · exact absurd (hres ▸ hc) hp4
        | Nat.succ j =>
          have hj1 : j < rest.length := by simpa using h1
          refine ⟨j, res, hj1, ?_, ?_⟩
          · simpa [goPorts, hf] using hgo
          · intro q hq1 hq2
            have := hcov q (by simpa using hq1) (by simpa using hq2)
            rcases this with hq | hq
            · exact Or.inl (List.mem_cons_of_mem p hq)
            · exact Or.inr hq

theorem getElem_mem_take (l : List Nat) (i j : Nat) (hi : i < l.length) (hij : i < j) :
    l[i] ∈ l.take j := by
  have h1 : i < (l.take j).length := by simp [List.length_take]; omega
  have h2 : (l.take j)[i] = l[i] := List.getElem_take l
  exact h2 ▸ List.getElem_mem h1

/-- C2: when port allocation succeeds it returns one port per declared port,
in order, the i-th being the least port of the declared port's 1000-window
that is neither runtime-bound nor claimed earlier in the same call; hence the
result has no duplicates and avoids every runtime-bound port; and on declared
ports `[3001]` with `{3001, 3002}` bound, the allocation is `[3003]`. -/
theorem portAllocation_correct (tps used res : List Nat)
    (h : findAvailablePorts tps used = some res) :
    res.length = tps.length ∧
    (∀ i (h1 : i < tps.length) (h2 : i < res.length),
      isLeastAvail (used ++ res.take i) (tps.get ⟨i, h1⟩) (res.get ⟨i, h2⟩)) ∧
    res.Nodup ∧
    (∀ p, p ∈ res → p ∉ used) ∧
    findAvailablePorts [3001] [3001, 3002] = some [3003] := by
  obtain ⟨ch, hch, hlen, hspec⟩ := goPorts_spec tps used [] res h
  have hres : res = ch := by simpa using hch
  subst hres
  have key : ∀ (i j : Fin res.length), i.1 < j.1 → res.get i ≠ res.get j := by
    intro i j hij hEq
    have hj1 : j.1 < tps.length := hlen ▸ j.2
    obtain ⟨-, -, hnotin, -⟩ := hspec j.1 hj1 j.2
    apply hnotin
    have hmem : res.get i ∈ res.take j.1 := by
      have := getElem_mem_take res i.1 j.1 i.2 hij
      simpa [List.get_eq_getElem] using this
    rw [hEq] at hmem
    simp only [List.mem_append]
    exact Or.inr hmem
  refine ⟨hlen, ?_, ?_, ?_, by decide⟩
  · intro i h1 h2
    have := hspec i h1 h2
    exact (isLeastAvail_congr _ _ (by intro x; simp [List.mem_append]) _ _).mp this
  · rw [List.nodup_iff_injective_get]
    intro a b hab
    rcases Nat.lt_trichotomy a.1 b.1 with hlt | heq | hgt
    · exact absurd hab (key a b hlt)
    · exact Fin.ext_iff.mpr heq
    · exact absurd hab.symm (key b a hgt)
  · intro p hp hused
    obtain ⟨i, hget⟩ := List.mem_iff_get.mp hp
    obtain ⟨-, -, hnotin, -⟩ := hspec i.1 (hlen ▸ i.2) i.2
    apply hnotin
    simp only [List.mem_append]
    left; left
    rw [show (⟨i.1, i.2⟩ : Fin res.length) = i from rfl, hget]
    exact hused

/-- Witness: the claim theorem applied to the spec scenario
`allocate([3001])` against bound ports `{3001, 3002}`. -/
theorem portAllocation_correct_witness :
    findAvailablePorts [3001] [3001, 3002] = some [3003] ∧
    ([3003] : List Nat).Nodup ∧ (3003 : Nat) ∉ ([3001, 3002] : List Nat) := by
  have h : findAvailablePorts [3001] [3001, 3002] = some [3003] := by decide
  obtain ⟨-, -, hnodup, hnotused, -⟩ :=
    portAllocation_correct [3001] [3001, 3002] [3003] h
  exact ⟨h, hnodup, hnotused 3003 (by simp)⟩

/-- Instance row used by the `portAllocation_failure` witness. -/
def wFailInst : InstRec :=
  { id := "w1", userId := "u", name := "w", templateId := "t",
    status := .pending, containerId := none, containerName := "t-w1",
    createdAt := 0, lastStarted := none, accessUrl := none, ports := [0],
    specs := defaultSpecs }

/-- Template used by the `portAllocation_failure` witness: declares port 0, so
the window `[0, 1000)` can be saturated with a small concrete used set. -/
def wFailTpl : OSTemplate :=
  { id := "t", name := "T", image := "img", ports := [0], environment := [],
    volumes := [], accessUrl := none }

/-- Runtime responses used by the `portAllocation_failure` witness: no
pre-existing container, every port of the window already bound. -/
def wFailRt : ReconcileRuntime :=
  { existing := none, inspectExisting := .err none,
    runtimeUsedPorts := List.range 1000, createResult := .ok "c" }

/-- C6: allocation fails exactly when, for some declared port, every port of
its 1000-window is runtime-bound or was claimed for an earlier declared port
of the same call; and on such a failure the reconcile run commits nothing but
`status = terminated` (container id and ports of the row are untouched). -/
theorem portAllocation_failure :
    (∀ tps used, findAvailablePorts tps used = none ↔
      ∃ i res, ∃ h1 : i < tps.length,
        findAvailablePorts (tps.take i) used = some res ∧
        ∀ q, tps.get ⟨i, h1⟩ ≤ q → q < tps.get ⟨i, h1⟩ + 1000 →
          (q ∈ used ∨ q ∈ res)) ∧
    (∀ (inst : InstRec) (tpl : OSTemplate) (rt : ReconcileRuntime),
      rt.existing = none →
      findAvailablePorts tpl.ports rt.runtimeUsedPorts = none →
      createContainer inst tpl rt =
        (some { inst with status := Status.terminated },
         [Event.statusChanged inst.id Status.terminated])) := by
  constructor
  · intro tps used
    simpa [findAvailablePorts] using goPorts_eq_none_iff tps used []
  · intro inst tpl rt h1 h2
    simp [createContainer, h1, findAvailablePorts] at h2 ⊢
    rw [h2]

set_option maxRecDepth 8192 in
/-- Witness: a declared port 0 whose whole window `[0, 1000)` is bound fails
allocation, and the reconcile run with those responses persists only
`terminated`. -/
theorem portAllocation_failure_witness :
    findAvailablePorts [0] (List.range 1000) = none ∧
    createContainer wFailInst wFailTpl wFailRt =
      (some { wFailInst with status := Status.terminated },
       [Event.statusChanged wFailInst.id Status.terminated]) := by
  have hnone : findAvailablePorts [0] (List.range 1000) = none :=
    (portAllocation_failure.1 [0] (List.range 1000)).mpr
      ⟨0, [], by simp, rfl, by
        intro q hq1 hq2
        left
        apply List.mem_range.mpr
        simp only [List.get] at hq2
        omega⟩
  refine ⟨hnone, portAllocation_failure.2 wFailInst wFailTpl wFailRt rfl ?_⟩
  rw [show wFailTpl.ports = [0] from rfl,
      show wFailRt.runtimeUsedPorts = List.range 1000 from rfl]
  exact hnone

/-! ## The containerRef invariant (claim C1) -/

/-- C1 (amended): along every reachable sequence of orchestrator operations,
a persisted row whose status is `running` or `stopped` carries a container
reference.  (The claim's stronger form — a reference on every non-`pending`
row — fails on the creation-failure branch, see
`containerRef_claim_false`.) -/
theorem containerRef_invariant :
    ∀ s, Reachable s → ∀ r, s = some r →
      (r.status = Status.running ∨ r.status = Status.stopped) →
      r.containerId ≠ none := by
  intro s hs
  unfold Reachable at hs
  induction hs with
  | refl => intro r hr; exact absurd hr (by simp)
  | @tail b c hb hstep ih =>
    intro r hr hst
    subst hr
    rcases hstep with
        ⟨uid, nm, tid, iid, tpl, ts, sp, h, ha, hc⟩ |
        ⟨inst, tpl, rt, h, ha, hc⟩ |
        ⟨rt, now, hc⟩ | ⟨rt, hc⟩ | ⟨rt, now, hc⟩ | ⟨rt, hc⟩ | ⟨rt, hc⟩
    · -- createInstance: the fresh row is pending
      have hr' : newInstance uid nm tid tpl iid ts sp = r := Option.some.inj hc.symm
      rw [← hr'] at hst
      simp [newInstance] at hst
    · -- createContainer reconciliation
      rcases rt with ⟨ex, insp, up, cr⟩
      cases ex with
      | some pr =>
        rcases pr with ⟨cid, exPorts⟩
        simp [createContainer] at hc
        simp [hc]
      | none =>
        cases hfa : findAvailablePorts tpl.ports up with
        | none =>
          simp [createContainer, hfa] at hc
          rw [hc] at hst
          simp at hst
        | some avail =>
          cases cr with
          | ok cid =>
            simp [createContainer, hfa] at hc
            simp [hc]
          | err code =>
            simp [createContainer, hfa] at hc
            rw [hc] at hst
            simp at hst
    · -- startInstance
      cases b with
      | none => simp [startInstance] at hc
      | some inst =>
        cases hcid : inst.containerId with
        | none =>
          simp [startInstance, hcid] at hc
          exact hc ▸ ih inst rfl (hc ▸ hst)
        | some cid =>
          have hcc : r.containerId = some cid := by
            rcases rt with ⟨insp, act⟩
            cases insp with
            | ok info =>
              cases hrun : info.running with
              | true =>
                simp [startInstance, hcid, hrun] at hc
                simp [hc, hcid]
              | false =>
                cases act with
                | ok u =>
                  simp [startInstance, hcid, hrun] at hc
                  simp [hc, hcid]
                | err code =>
                  simp [startInstance, hcid, hrun, startCatch] at hc
                  split_ifs at hc <;> (try simp at hc) <;> simp [hc, hcid]
            | err code =>
              simp [startInstance, hcid, startCatch] at hc
              split_ifs at hc <;> (try simp at hc) <;> simp [hc, hcid]
          simp [hcc]
    · -- stopInstance
      cases b with
      | none => simp [stopInstance] at hc
      | some inst =>
        cases hcid : inst.containerId with
        | none =>
          simp [stopInstance, hcid] at hc
          exact hc ▸ ih inst rfl (hc ▸ hst)
        | some cid =>
          have hcc : r.containerId = some cid := by
            rcases rt with ⟨insp, act⟩
            cases insp with
            | ok info =>
              cases hrun : info.running with
              | false =>
                simp [stopInstance, hcid, hrun] at hc
                simp [hc, hcid]
              | true =>
                cases act with
                | ok u =>
                  simp [stopInstance, hcid, hrun] at hc
                  simp [hc, hcid]
                | err code =>
                  simp [stopInstance, hcid, hrun, stopCatch] at hc
                  split_ifs at hc <;> (try simp at hc) <;> simp [hc, hcid]
            | err code =>
              simp [stopInstance, hcid, stopCatch] at hc
              split_ifs at hc <;> (try simp at hc) <;> simp [hc, hcid]
          simp [hcc]
    · -- restartInstance
      cases b with
      | none => simp [restartInstance] at hc
      | some inst =>
        cases hcid : inst.containerId with
        | none =>
          simp [restartInstance, hcid] at hc
          exact hc ▸ ih inst rfl (hc ▸ hst)
        | some cid =>
          have hcc : r.containerId = some cid := by
            rcases rt with ⟨insp, act⟩
            cases insp with
            | ok info =>
              cases act with
              | ok u =>
                simp [restartInstance, hcid] at hc
                simp [hc, hcid]
              | err code =>
                simp [restartInstance, hcid, restartCatch] at hc
                split_ifs at hc <;> (try simp at hc) <;> simp [hc, hcid]
            | err code =>
              simp [restartInstance, hcid, restartCatch] at hc
              split_ifs at hc <;> (try simp at hc) <;> simp [hc, hcid]
          simp [hcc]
    · -- terminateInstance
      cases b with
      | none => simp [terminateInstance] at hc
      | some inst =>
        cases hcid : inst.containerId with
        | none =>
          simp [terminateInstance, hcid, termFinish] at hc
          rw [hc] at hst
          simp at hst
        | some cid =>
          rcases rt with ⟨insp, rem⟩
          have hdone : r.status = Status.terminated ∨ r = inst := by
            cases insp with
            | ok info =>
              cases rem with
              | ok u =>
                simp [terminateInstance, hcid, termFinish] at hc
                simp [hc]
              | err code =>
                simp [terminateInstance, hcid, termFinish] at hc
                split_ifs at hc <;> (try simp at hc) <;> simp [hc]
            | err code =>
              simp [terminateInstance, hcid, termFinish] at hc
              split_ifs at hc <;> (try simp at hc) <;> simp [hc]
          rcases hdone with hd | hd
          · rw [hd] at hst; simp at hst
          · exact hd ▸ ih inst rfl (hd ▸ hst)
    · -- syncInstanceStatus
      cases b with
      | none => simp [syncInstanceStatus] at hc
      | some inst =>
        cases hcid : inst.containerId with
        | none =>
          simp [syncInstanceStatus, hcid] at hc
          exact hc ▸ ih inst rfl (hc ▸ hst)
        | some cid =>
          have hcc : r.containerId = some cid := by
            cases rt with
            | ok info =>
              simp [syncInstanceStatus, hcid] at hc
              simp [hc, hcid]
            | err code =>
              simp [syncInstanceStatus, hcid] at hc
              split_ifs at hc <;> (try simp at hc) <;> simp [hc, hcid]
          simp [hcc]

/-- The alpine catalog entry, spelled out for concrete C1 runs. -/
def cAlpineTpl : OSTemplate :=
  { id := "alpine-desktop", name := "Alpine Linux",
    image := "danielguerra/alpine-vnc:latest", ports := [3001],
    environment := [("VNC_PASSWORD", "osmanager"), ("RESOLUTION", "1920x1080")],
    volumes := ["alpine_config:/home/alpine"],
    accessUrl := some "http://localhost:3001" }

/-- The row `createInstance` inserts for an alpine instance. -/
def cNewInst : InstRec :=
  newInstance "user1" "dev1" "alpine-desktop" cAlpineTpl "inst0001" 0 none

/-- Reconcile responses where `docker.createContainer` throws. -/
def cFailRt : ReconcileRuntime :=
  { existing := none, inspectExisting := .err none, runtimeUsedPorts := [],
    createResult := .err none }

/-- The row left behind by the creation-failure branch. -/
def cFailedRec : InstRec := { cNewInst with status := Status.terminated }

/-- Reconcile responses adopting a running pre-existing container `c0`. -/
def cAdoptRt : ReconcileRuntime :=
  { existing := some ("c0", [3001]),
    inspectExisting := .ok { running := true, status := "running" },
    runtimeUsedPorts := [], createResult := .ok "cX" }

/-- The row after adopting the running container `c0`. -/
def cAdoptedRec : InstRec :=
  { cNewInst with status := Status.running, containerId := some "c0",
                  accessUrl := some "http://localhost:3001", ports := [3001] }

/-- C1 as frozen is false on the code: after `createInstance` of an alpine
instance and a reconcile run whose `docker.createContainer` call throws, the
persisted row is reachable, its status is `terminated` (not `pending`), yet
its container reference is unset — the failure branch updates only the status
column. -/
theorem containerRef_claim_false :
    Reachable (some cFailedRec) ∧ cFailedRec.status ≠ Status.pending ∧
      cFailedRec.containerId = none := by
  refine ⟨?_, by decide, rfl⟩
  have h1 : OrchStep none (some cNewInst) :=
    Or.inl ⟨"user1", "dev1", "alpine-desktop", "inst0001", cAlpineTpl, 0, none,
      by decide, rfl, rfl⟩
  have h2 : OrchStep (some cNewInst) (some cFailedRec) :=
    Or.inr (Or.inl ⟨cNewInst, cAlpineTpl, cFailRt, by decide, rfl, by decide⟩)
  exact Relation.ReflTransGen.tail (Relation.ReflTransGen.single h1) h2

/-- Witness: the amended invariant applied to a concrete reachable `running`
row (created, then adopted a running pre-existing container). -/
theorem containerRef_invariant_witness : cAdoptedRec.containerId ≠ none := by
  have h1 : OrchStep none (some cNewInst) :=
    Or.inl ⟨"user1", "dev1", "alpine-desktop", "inst0001", cAlpineTpl, 0, none,
      by decide, rfl, rfl⟩
  have h2 : OrchStep (some cNewInst) (some cAdoptedRec) :=
    Or.inr (Or.inl ⟨cNewInst, cAlpineTpl, cAdoptRt, by decide, rfl, by decide⟩)
  exact containerRef_invariant (some cAdoptedRec)
    (Relation.ReflTransGen.tail (Relation.ReflTransGen.single h1) h2)
    cAdoptedRec rfl (Or.inl rfl)

/-! ## ContainerGone (claim C3) -/

theorem startCatch_gone_iff (inst : InstRec) (code : Option Nat) (now : Nat) :
    (startCatch inst code now).result = Except.error OpError.containerGone ↔
      code = some 404 := by
  unfold startCatch
  split_ifs with h1 h2
  · subst h1; simp
  · simp [h2]
  · simp [h2]

theorem startCatch_gone_db (inst : InstRec) (now : Nat) :
    (startCatch inst (some 404) now).db = some { inst with status := Status.terminated } :=
  rfl

theorem stopCatch_gone_iff (inst : InstRec) (code : Option Nat) :
    (stopCatch inst code).result = Except.error OpError.containerGone ↔
      code = some 404 := by
  unfold stopCatch
  split_ifs with h1 h2
  · subst h1; simp
  · simp [h2]
  · simp [h2]

theorem stopCatch_gone_db (inst : InstRec) :
    (stopCatch inst (some 404)).db = some { inst with status := Status.terminated } :=
  rfl

theorem restartCatch_gone_iff (inst : InstRec) (code : Option Nat) :
    (restartCatch inst code).result = Except.error OpError.containerGone ↔
      code = some 404 := by
  unfold restartCatch
  split_ifs with h1
  · simp [h1]
  · simp [h1]

theorem restartCatch_gone_db (inst : InstRec) :
    (restartCatch inst (some 404)).db = some { inst with status := Status.terminated } :=
  rfl

theorem start_gone_iff (inst : InstRec) (c : String) (rt : StartRuntime) (now : Nat)
    (h : inst.containerId = some c) :
    ((startInstance (some inst) rt now).result = Except.error OpError.containerGone ↔
      rt.inspect = DockerResult.err (some 404) ∨
        ∃ info, rt.inspect = DockerResult.ok info ∧ info.running = false ∧
          rt.start = DockerResult.err (some 404)) ∧
    ((startInstance (some inst) rt now).result = Except.error OpError.containerGone →
      (startInstance (some inst) rt now).db =
        some { inst with status := Status.terminated }) := by
  rcases rt with ⟨insp, act⟩
  cases insp with
  | ok info =>
    cases hrun : info.running with
    | true =>
      constructor
      · simp [startInstance, h, hrun]
      · intro hres; exact absurd hres (by simp [startInstance, h, hrun])
    | false =>
      cases act with
      | ok u =>
        constructor
        · simp [startInstance, h, hrun]
        · intro hres; exact absurd hres (by simp [startInstance, h, hrun])
      | err code =>
        have hred : startInstance (some inst) ⟨DockerResult.ok info, DockerResult.err code⟩ now =
            startCatch inst code now := by
          simp [startInstance, h, hrun]
        rw [hred]
        constructor
        · rw [startCatch_gone_iff]
          simp [hrun]
        · intro hres
          rw [(startCatch_gone_iff inst code now).mp hres]
          exact startCatch_gone_db inst now
  | err code =>
    have hred : startInstance (some inst) ⟨DockerResult.err code, act⟩ now =
        startCatch inst code now := by
      simp [startInstance, h]
    rw [hred]
    constructor
    · rw [startCatch_gone_iff]
      simp
    · intro hres
      rw [(startCatch_gone_iff inst code now).mp hres]
      exact startCatch_gone_db inst now

theorem stop_gone_iff (inst : InstRec) (c : String) (rt : StopRuntime)
    (h : inst.containerId = some c) :
    ((stopInstance (some inst) rt).result = Except.error OpError.containerGone ↔
      rt.inspect = DockerResult.err (some 404) ∨
        ∃ info, rt.inspect = DockerResult.ok info ∧ info.running = true ∧
          rt.stop = DockerResult.err (some 404)) ∧
    ((stopInstance (some inst) rt).result = Except.error OpError.containerGone →
      (stopInstance (some inst) rt).db =
        some { inst with status := Status.terminated }) := by
  rcases rt with ⟨insp, act⟩
  cases insp with
  | ok info =>
    cases hrun : info.running with
    | false =>
      constructor
      · simp [stopInstance, h, hrun]
      · intro hres; exact absurd hres (by simp [stopInstance, h, hrun])
    | true =>
      cases act with
      | ok u =>
        constructor
        · simp [stopInstance, h, hrun]
        · intro hres; exact absurd hres (by simp [stopInstance, h, hrun])
      | err code =>
        have hred : stopInstance (some inst) ⟨DockerResult.ok info, DockerResult.err code⟩ =
            stopCatch inst code := by
          simp [stopInstance, h, hrun]
        rw [hred]
        constructor
        · rw [stopCatch_gone_iff]
          simp [hrun]
        · intro hres
          rw [(stopCatch_gone_iff inst code).mp hres]
          exact stopCatch_gone_db inst
  | err code =>
    have hred : stopInstance (some inst) ⟨DockerResult.err code, act⟩ =
        stopCatch inst code := by
      simp [stopInstance, h]
    rw [hred]
    constructor
    · rw [stopCatch_gone_iff]
      simp
    · intro hres
      rw [(stopCatch_gone_iff inst code).mp hres]
      exact stopCatch_gone_db inst

theorem restart_gone_iff (inst : InstRec) (c : String) (rt : RestartRuntime) (now : Nat)
    (h : inst.containerId = some c) :
    ((restartInstance (some inst) rt now).result = Except.error OpError.containerGone ↔
      rt.inspect = DockerResult.err (some 404) ∨
        ∃ info, rt.inspect = DockerResult.ok info ∧
          rt.restart = DockerResult.err (some 404)) ∧
    ((restartInstance (some inst) rt now).result = Except.error OpError.containerGone →
      (restartInstance (some inst) rt now).db =
        some { inst with status := Status.terminated }) := by
  rcases rt with ⟨insp, act⟩
  cases insp with
  | ok info =>
    cases act with
    | ok u =>
      constructor
      · simp [restartInstance, h]
      · intro hres; exact absurd hres (by simp [restartInstance, h])
    | err code =>
      have hred : restartInstance (some inst) ⟨DockerResult.ok info, DockerResult.err code⟩ now =
          restartCatch inst code := by
        simp [restartInstance, h]
      rw [hred]
      constructor
      · rw [restartCatch_gone_iff]
        simp
      · intro hres
        rw [(restartCatch_gone_iff inst code).mp hres]
        exact restartCatch_gone_db inst
  | err code =>
    have hred : restartInstance (some inst) ⟨DockerResult.err code, act⟩ now =
        restartCatch inst code := by
      simp [restartInstance, h]
    rw [hred]
    constructor
    · rw [restartCatch_gone_iff]
      simp
    · intro hres
      rw [(restartCatch_gone_iff inst code).mp hres]
      exact restartCatch_gone_db inst

/-- C3: for an owned instance with a container reference, `start`, `stop` and
`restart` raise `ContainerGone` (the `Container no longer exists` error)
exactly when the runtime call they actually reach reports 404, and in that
case the persisted status becomes `terminated`. -/
theorem containerGone_characterization (inst : InstRec) (c : String)
    (h : inst.containerId = some c) :
    (∀ (rt : StartRuntime) (now : Nat),
      ((startInstance (some inst) rt now).result = Except.error OpError.containerGone ↔
        rt.inspect = DockerResult.err (some 404) ∨
          ∃ info, rt.inspect = DockerResult.ok info ∧ info.running = false ∧
            rt.start = DockerResult.err (some 404)) ∧
      ((startInstance (some inst) rt now).result = Except.error OpError.containerGone →
        (startInstance (some inst) rt now).db =
          some { inst with status := Status.terminated })) ∧
    (∀ rt : StopRuntime,
      ((stopInstance (some inst) rt).result = Except.error OpError.containerGone ↔
        rt.inspect = DockerResult.err (some 404) ∨
          ∃ info, rt.inspect = DockerResult.ok info ∧ info.running = true ∧
            rt.stop = DockerResult.err (some 404)) ∧
      ((stopInstance (some inst) rt).result = Except.error OpError.containerGone →
        (stopInstance (some inst) rt).db =
          some { inst with status := Status.terminated })) ∧
    (∀ (rt : RestartRuntime) (now : Nat),
      ((restartInstance (some inst) rt now).result = Except.error OpError.containerGone ↔
        rt.inspect = DockerResult.err (some 404) ∨
          ∃ info, rt.inspect = DockerResult.ok info ∧
            rt.restart = DockerResult.err (some 404)) ∧
      ((restartInstance (some inst) rt now).result = Except.error OpError.containerGone →
        (restartInstance (some inst) rt now).db =
          some { inst with status := Status.terminated })) :=
  ⟨fun rt now => start_gone_iff inst c rt now h,
   fun rt => stop_gone_iff inst c rt h,
   fun rt now => restart_gone_iff inst c rt now h⟩

/-- Instance row with a container reference, for concrete lifecycle runs. -/
def wGoneInst : InstRec :=
  { id := "i1", userId := "u1", name := "n1", templateId := "alpine-desktop",
    status := Status.stopped, containerId := some "c1",
    containerName := "alpine-desktop-i1", createdAt := 0, lastStarted := none,
    accessUrl := none, ports := [3001], specs := defaultSpecs }

/-- Start responses where the inspect reports the container gone. -/
def wGoneStartRt : StartRuntime :=
  { inspect := DockerResult.err (some 404), start := DockerResult.ok () }

/-- Witness: starting `wGoneInst` when the runtime 404s raises `ContainerGone`
and persists `terminated`. -/
theorem containerGone_characterization_witness :
    (startInstance (some wGoneInst) wGoneStartRt 5).result =
      Except.error OpError.containerGone ∧
    (startInstance (some wGoneInst) wGoneStartRt 5).db =
      some { wGoneInst with status := Status.terminated } := by
  have h := (containerGone_characterization wGoneInst "c1" rfl).1 wGoneStartRt 5
  have hres := h.1.mpr (Or.inl rfl)
  exact ⟨hres, h.2 hres⟩

/-! ## Idempotent start on a running container (claim C4) -/

/-- C4: starting an owned instance whose container the runtime reports as
already running succeeds without error, persists status `running`, publishes
the change, and advances the last-started timestamp to the current (later)
time, so it differs from the previous one. -/
theorem start_idempotent_running (inst : InstRec) (c : String) (info : InspectInfo)
    (rt : StartRuntime) (now : Nat)
    (h1 : inst.containerId = some c) (h2 : rt.inspect = DockerResult.ok info)
    (h3 : info.running = true) (h4 : ∀ t, inst.lastStarted = some t → t < now) :
    (startInstance (some inst) rt now).result = Except.ok () ∧
    (startInstance (some inst) rt now).db =
      some { inst with status := Status.running, lastStarted := some now } ∧
    (startInstance (some inst) rt now).events =
      [Event.statusChanged inst.id Status.running] ∧
    ∀ r, (startInstance (some inst) rt now).db = some r →
      r.lastStarted = some now ∧ r.lastStarted ≠ inst.lastStarted := by
  rcases rt with ⟨insp, act⟩
  cases h2
  refine ⟨by simp [startInstance, h1, h3], by simp [startInstance, h1, h3],
          by simp [startInstance, h1, h3], ?_⟩
  intro r hr
  simp [startInstance, h1, h3] at hr
  subst hr
  constructor
  · simp
  · cases hls : inst.lastStarted with
    | none => simp
    | some t =>
      have ht : t < now := h4 t hls
      simp
      omega

/-- Instance row with a recorded previous start, for the C4 witness. -/
def wRunInst : InstRec :=
  { id := "i2", userId := "u1", name := "n2", templateId := "alpine-desktop",
    status := Status.running, containerId := some "c2",
    containerName := "alpine-desktop-i2", createdAt := 0, lastStarted := some 3,
    accessUrl := none, ports := [3001], specs := defaultSpecs }

/-- Start responses reporting the container already running. -/
def wRunStartRt : StartRuntime :=
  { inspect := DockerResult.ok { running := true, status := "running" },
    start := DockerResult.err (some 500) }

/-- Witness: the idempotent-start theorem at a concrete running instance. -/
theorem start_idempotent_running_witness :
    (startInstance (some wRunInst) wRunStartRt 7).result = Except.ok () ∧
    (startInstance (some wRunInst) wRunStartRt 7).db =
      some { wRunInst with status := Status.running, lastStarted := some 7 } := by
  have h := start_idempotent_running wRunInst "c2"
    { running := true, status := "running" } wRunStartRt 7 rfl rfl rfl
    (by intro t ht; injection ht with ht; omega)
  exact ⟨h.1, h.2.1⟩

/-! ## Idempotent terminate (claim C5) -/

/-- A Docker call that either succeeds or fails with status 404. -/
def okOr404 {α : Type} (r : DockerResult α) : Prop :=
  (∃ a, r = DockerResult.ok a) ∨ r = DockerResult.err (some 404)

theorem terminate_ok (inst : InstRec) (rt : TermRuntime)
    (h1 : okOr404 rt.inspect) (h2 : okOr404 rt.remove) :
    terminateInstance (some inst) rt = termFinish inst := by
  rcases rt with ⟨insp, rem⟩
  cases hcid : inst.containerId with
  | none => simp [terminateInstance, hcid]
  | some c =>
    rcases h1 with ⟨a, ha⟩ | ha
    · cases ha
      rcases h2 with ⟨b, hb⟩ | hb
      · cases hb; simp [terminateInstance, hcid]
      · cases hb; simp [terminateInstance, hcid]
    · cases ha
      simp [terminateInstance, hcid]

/-- C5: terminating twice in succession succeeds both times — a 404 from the
inspect or the forced remove (in particular on the second call, after the
container was removed) is absorbed — and both calls leave the persisted
status `terminated`. -/
theorem terminate_idempotent (inst : InstRec) (rt₁ rt₂ : TermRuntime)
    (h1 : okOr404 rt₁.inspect) (h2 : okOr404 rt₁.remove)
    (h3 : okOr404 rt₂.inspect) (h4 : okOr404 rt₂.remove) :
    (terminateInstance (some inst) rt₁).result = Except.ok () ∧
    ∃ r₁, (terminateInstance (some inst) rt₁).db = some r₁ ∧
      r₁.status = Status.terminated ∧
      (terminateInstance (some r₁) rt₂).result = Except.ok () ∧
      ∃ r₂, (terminateInstance (some r₁) rt₂).db = some r₂ ∧
        r₂.status = Status.terminated := by
  rw [terminate_ok inst rt₁ h1 h2]
  refine ⟨rfl, { inst with status := Status.terminated }, rfl, rfl, ?_⟩
  rw [terminate_ok _ rt₂ h3 h4]
  exact ⟨rfl, { inst with status := Status.terminated }, rfl, rfl⟩

/-- Remove responses of a first terminate call: container present, removed. -/
def wTermRt₁ : TermRuntime :=
  { inspect := DockerResult.ok { running := false, status := "exited" },
    remove := DockerResult.ok () }

/-- Remove responses of a second terminate call: the container is gone. -/
def wTermRt₂ : TermRuntime :=
  { inspect := DockerResult.err (some 404), remove := DockerResult.err (some 404) }

/-- Witness: terminating `wGoneInst`-shaped data twice, the second call
hitting 404, succeeds both times with status `terminated`. -/
theorem terminate_idempotent_witness :
    (terminateInstance (some wRunInst) wTermRt₁).result = Except.ok () ∧
    (terminateInstance
      (some { wRunInst with status := Status.terminated }) wTermRt₂).result =
      Except.ok () := by
  have h := terminate_idempotent wRunInst wTermRt₁ wTermRt₂
    (Or.inl ⟨_, rfl⟩) (Or.inl ⟨_, rfl⟩) (Or.inr rfl) (Or.inr rfl)
  obtain ⟨hres₁, r₁, hdb₁, hst₁, hres₂, -⟩ := h
  refine ⟨hres₁, ?_⟩
  have hr₁ : r₁ = { wRunInst with status := Status.terminated } := by
    rw [terminate_ok wRunInst wTermRt₁ (Or.inl ⟨_, rfl⟩) (Or.inl ⟨_, rfl⟩)] at hdb₁
    exact (Option.some.inj hdb₁).symm
  rw [← hr₁]
  exact hres₂

/-! ## Terminate without a container reference (claim C10) -/

/-- C10: terminating an owned row that has no container reference yet ignores
the runtime entirely (the outcome is the same for every runtime response),
persists `terminated` and publishes it — while `start`, `stop` and `restart`
reject the same row as not found / not ready and leave it unchanged. -/
theorem terminate_without_container (inst : InstRec) (h : inst.containerId = none) :
    (∀ rt : TermRuntime,
      terminateInstance (some inst) rt =
        { db := some { inst with status := Status.terminated }
          events := [Event.statusChanged inst.id Status.terminated]
          result := Except.ok () }) ∧
    (∀ (rt : StartRuntime) (now : Nat),
      (startInstance (some inst) rt now).result = Except.error OpError.instanceNotFound ∧
      (startInstance (some inst) rt now).db = some inst) ∧
    (∀ rt : StopRuntime,
      (stopInstance (some inst) rt).result = Except.error OpError.instanceNotFound ∧
      (stopInstance (some inst) rt).db = some inst) ∧
    (∀ (rt : RestartRuntime) (now : Nat),
      (restartInstance (some inst) rt now).result = Except.error OpError.instanceNotFound ∧
      (restartInstance (some inst) rt now).db = some inst) := by
  refine ⟨fun rt => ?_, fun rt now => ?_, fun rt => ?_, fun rt now => ?_⟩
  · simp [terminateInstance, termFinish, h]
  · simp [startInstance, h]
  · simp [stopInstance, h]
  · simp [restartInstance, h]

/-- Witness: the no-container terminate/reject behaviour at the freshly
created `pending` row. -/
theorem terminate_without_container_witness :
    (terminateInstance (some cNewInst) wTermRt₂).result = Except.ok () ∧
    (terminateInstance (some cNewInst) wTermRt₂).db =
      some { cNewInst with status := Status.terminated } ∧
    (startInstance (some cNewInst) wGoneStartRt 1).result =
      Except.error OpError.instanceNotFound := by
  have h := terminate_without_container cNewInst rfl
  rw [h.1 wTermRt₂]
  exact ⟨rfl, rfl, (h.2.1 wGoneStartRt 1).1⟩

/-! ## Terminal open against a non-running container (claim C7) -/

/-- C7: a terminal-open request against a container that cannot be inspected
or is reported not running emits exactly one session-scoped `terminal-error`
carrying the session id, registers nothing, and — the session id being
unknown — subsequent write/resize/close calls with it are no-ops. -/
theorem terminal_open_rejects (sessions : Registry) (sock cid sid : String)
    (rt : OpenRuntime) (hfresh : regGet sessions sid = none)
    (hbad : (∃ code, rt.inspect = DockerResult.err code) ∨
            ∃ info, rt.inspect = DockerResult.ok info ∧ info.running = false) :
    (createTerminalSession sessions sock cid sid rt).1 = sessions ∧
    (createTerminalSession sessions sock cid sid rt).2 = [TermEvent.terminalError sid] ∧
    (∀ d, writeToTerminal sessions sid d = none) ∧
    (∀ c r, resizeTerminal sessions sid c r = none) ∧
    closeSession sessions sid = sessions := by
  have hw : ∀ d, writeToTerminal sessions sid d = none := by
    intro d; simp [writeToTerminal, hfresh]
  have hrs : ∀ c r, resizeTerminal sessions sid c r = none := by
    intro c r; simp [resizeTerminal, hfresh]
  have hcl : closeSession sessions sid = sessions := by
    simp [closeSession, hfresh]
  rcases hbad with ⟨code, hc⟩ | ⟨info, hc, hrun⟩
  · exact ⟨by simp [createTerminalSession, hc], by simp [createTerminalSession, hc],
           hw, hrs, hcl⟩
  · exact ⟨by simp [createTerminalSession, hc, hrun],
           by simp [createTerminalSession, hc, hrun], hw, hrs, hcl⟩

/-- Open responses for a stopped container. -/
def wStoppedOpenRt : OpenRuntime :=
  { inspect := DockerResult.ok { running := false, status := "exited" },
    probe := DockerResult.err none, execCreate := DockerResult.ok (),
    execStart := DockerResult.ok () }

/-- Witness: opening a terminal on a stopped container with an empty registry
yields one error event, no registration, and a dead session id. -/
theorem terminal_open_rejects_witness :
    (createTerminalSession [] "sock1" "c9" "t1" wStoppedOpenRt).1 = [] ∧
    (createTerminalSession [] "sock1" "c9" "t1" wStoppedOpenRt).2 =
      [TermEvent.terminalError "t1"] ∧
    writeToTerminal [] "t1" "ls" = none := by
  have h := terminal_open_rejects [] "sock1" "c9" "t1" wStoppedOpenRt rfl
    (Or.inr ⟨_, rfl, rfl⟩)
  exact ⟨h.1, h.2.1, h.2.2.1 "ls"⟩

/-! ## Monitor snapshot diffing (claim C8) -/

theorem find?_id_self (l : List ContainerStatus)
    (hnd : (l.map ContainerStatus.id).Nodup) :
    ∀ ns ∈ l, l.find? (fun s => s.id == ns.id) = some ns := by
  induction l with
  | nil => intro ns h; simp at h
  | cons a t ih =>
    intro ns hmem
    simp only [List.map_cons, List.nodup_cons] at hnd
    rcases List.mem_cons.mp hmem with rfl | ht
    · exact List.find?_cons_of_pos t (by simp)
    · have hne : (a.id == ns.id) = false := by
        apply beq_eq_false_iff_ne.mpr
        intro he
        exact hnd.1 (he ▸ List.mem_map_of_mem ContainerStatus.id ht)
      rw [List.find?_cons_of_neg t (by simp [hne])]
      exact ih hnd.2 ns ht

theorem hasContainerStatusChanged_self (l : List ContainerStatus)
    (hnd : (l.map ContainerStatus.id).Nodup) :
    hasContainerStatusChanged l l = false := by
  unfold hasContainerStatusChanged
  rw [if_neg (by simp)]
  rw [List.any_eq_false]
  intro ns hns
  rw [find?_id_self l hnd ns hns]
  simp

/-- C8: a tick publishes the snapshot exactly when the diff against the
stored baseline reports a change (count, or some container's status/state);
after any tick, an identical second listing publishes nothing; starting from
the empty baseline a nonempty listing is published on the first tick; and the
diff predicate holds exactly when the count differs or some listed container
has no baseline entry of equal status and state under its id. -/
theorem monitor_publishes_iff (last snap : List ContainerStatus)
    (hsn : (snap.map ContainerStatus.id).Nodup) :
    ((containerSnapshotTick last snap).1 = some snap ↔
      hasContainerStatusChanged last snap = true) ∧
    (containerSnapshotTick (containerSnapshotTick last snap).2 snap).1 = none ∧
    (snap ≠ [] → (containerSnapshotTick ([] : List ContainerStatus) snap).1 = some snap) ∧
    ((last.map ContainerStatus.id).Nodup →
      (hasContainerStatusChanged last snap = true ↔
        (last.length ≠ snap.length ∨
          ∃ ns ∈ snap, ∀ os ∈ last, os.id = ns.id →
            ¬(os.status = ns.status ∧ os.state = ns.state)))) := by
  refine ⟨?_, ?_, ?_, ?_⟩
  · by_cases hch : hasContainerStatusChanged last snap = true
    · simp [containerSnapshotTick, hch]
    · simp [containerSnapshotTick, hch]
  · by_cases hch : hasContainerStatusChanged last snap = true
    · simp [containerSnapshotTick, hch, hasContainerStatusChanged_self snap hsn]
    · simp [containerSnapshotTick, hch]
  · intro hne
    have hlen : ([] : List ContainerStatus).length ≠ snap.length := by
      intro h
      exact hne (List.length_eq_zero.mp h.symm)
    have hch : hasContainerStatusChanged [] snap = true := by
      unfold hasContainerStatusChanged
      rw [if_pos hlen]
    simp [containerSnapshotTick, hch]
  · intro hln
    unfold hasContainerStatusChanged
    by_cases hlen : last.length ≠ snap.length
    · rw [if_pos hlen]
      simp [hlen]
    · rw [if_neg hlen]
      rw [List.any_eq_true]
      constructor
      · rintro ⟨ns, hns, hf⟩
        refine Or.inr ⟨ns, hns, ?_⟩
        intro os hos hid
        cases hfind : last.find? (fun s => s.id == ns.id) with
        | none =>
          exact absurd hid ((by simpa using List.find?_eq_none.mp hfind os hos))
        | some os' =>
          rw [hfind] at hf
          have hos' : os' ∈ last := List.mem_of_find?_eq_some hfind
          have hid' : os'.id = ns.id := by simpa using List.find?_some hfind
          have : os = os' :=
            List.inj_on_of_nodup_map hln hos hos' (by rw [hid, hid'])
          subst this
          simp only [Bool.or_eq_true, bne_iff_ne] at hf
          rintro ⟨h1, h2⟩
          rcases hf with hf | hf
          · exact hf h1
          · exact hf h2
      · rintro (hlen' | ⟨ns, hns, hall⟩)
        · exact absurd hlen' hlen
        · refine ⟨ns, hns, ?_⟩
          cases hfind : last.find? (fun s => s.id == ns.id) with
          | none => rfl
          | some os =>
            have hos : os ∈ last := List.mem_of_find?_eq_some hfind
            have hid : os.id = ns.id := by simpa using List.find?_some hfind
            have := hall os hos hid
            simp only [Bool.or_eq_true, bne_iff_ne]
            by_cases h1 : os.status = ns.status
            · exact Or.inr (fun h2 => this ⟨h1, h2⟩)
            · exact Or.inl h1

/-- A container snapshot entry used by the monitor witnesses. -/
def wCont : ContainerStatus :=
  { id := "a1", name := "alpine-desktop", status := "Up 5 seconds",
    state := "running", ports := [3001], created := "0" }

/-- Witness: a fresh monitor ticking twice on the same one-container listing
publishes on the first tick and not on the second. -/
theorem monitor_publishes_iff_witness :
    (containerSnapshotTick [] [wCont]).1 = some [wCont] ∧
    (containerSnapshotTick (containerSnapshotTick [] [wCont]).2 [wCont]).1 = none := by
  have h := monitor_publishes_iff [] [wCont] (by simp)
  exact ⟨h.2.2.1 (by simp), h.2.1⟩

/-! ## Monitor frame property (claim C9) -/

/-- C9: a full monitor tick (snapshot diff plus per-name service probe) never
writes the persisted instance store: every record reads back unchanged, and
the only state the tick produces is its own two baselines. -/
theorem monitor_never_writes_instances (db : String → Option InstRec)
    (mon : MonitorState) (snap : List ContainerStatus)
    (probes : String → DockerResult String) (now : Nat) :
    ((monitorTick db mon snap probes now).1 = db) ∧
    (∀ instanceId, (monitorTick db mon snap probes now).1 instanceId = db instanceId) ∧
    ((monitorTick db mon snap probes now).2.1 =
      { lastContainerStatuses := (containerSnapshotTick mon.lastContainerStatuses snap).2,
        lastServiceStatuses := (checkServiceStatus mon.lastServiceStatuses probes now).1 }) :=
  ⟨rfl, fun _ => rfl, rfl⟩

end CloudOS
